import Mathlib

/-!
Verification of the dual-pane file browser (`src/main.rs`) against its
natural-language specification.

The embedding models absolute filesystem paths as lists of components
(`[]` is the filesystem root `/`), and the external filesystem as a pair
of oracles mirroring the two primitives the code uses: `fs::read_dir`
(whose iterator yields `io::Result<DirEntry>` values, each offering a
fallible `file_type()`) and `fs::metadata(..).map(|m| m.is_dir())`.
Fallible Rust code that can panic (`.unwrap()`) is embedded as an
`Option`-returning function, `none` standing for the panic.
-/

/-- Absolute path, as its list of components; `[]` is the filesystem root.
`PathBuf::join` with a relative single-component name appends the component
literally (no normalization), and `PathBuf::parent` drops the last component,
returning `None` at the root. -/
abbrev PathBuf := List String

def PathBuf.join (p : PathBuf) (n : String) : PathBuf := p ++ [n]

def PathBuf.parent : PathBuf → Option PathBuf
  | [] => none
  | a :: rest => some ((a :: rest).dropLast)

/-- Rust `PathBuf::display().to_string()` for an absolute path. -/
def PathBuf.display (p : PathBuf) : String := "/" ++ String.intercalate "/" p

/-- One successfully yielded `DirEntry`: its file name, and the result of
`entry.file_type()` (`none` models the `file_type()` call failing). -/
structure RawEntry where
  name : String
  fileTypeIsDir : Option Bool
deriving DecidableEq

/-- The external filesystem, via the two primitives the code calls.
`readDir p = none` models `fs::read_dir(p)` returning `Err`; an inner `none`
models a directory-iterator item that is itself `Err` (skipped by
`entry.ok()?`). `metadataIsDir p = none` models `fs::metadata(p)` failing. -/
structure Fs where
  readDir : PathBuf → Option (List (Option RawEntry))
  metadataIsDir : PathBuf → Option Bool

/-- Embedding of `FileItem`, with its `name` and `is_directory` fields. -/
structure FileItem where
  name : String
  is_directory : Bool
deriving DecidableEq

/-- Embedding of `FileList`: the pane's entries, the `ListState` selection, and the
current directory. -/
structure FileList where
  items : List FileItem
  selected : Option Nat
  current_path : PathBuf
deriving DecidableEq

/-- Embedding of `FileList::new`: maps every provided name (including a caller-inserted
`".."`) through `fs::metadata(&path.join(&name)).map(|m| m.is_dir()).unwrap_or(false)`
and selects index 0. -/
def FileList.new (fs : Fs) (names : List String) (path : PathBuf) : FileList :=
  { items := names.map (fun n =>
      { name := n, is_directory := (fs.metadataIsDir (path.join n)).getD false }),
    selected := some 0,
    current_path := path }

/-- The body of the `filter_map` in `refresh_items`, applied to a read
directory: `entry.ok()?` then `entry.file_type().ok()?.is_dir()`, so an
errored iterator item or an entry whose file type cannot be read is skipped. -/
def readDirItems (fs : Fs) (p : PathBuf) : Option (List FileItem) :=
  (fs.readDir p).map (fun l => l.filterMap (fun ent =>
    ent.bind (fun e => e.fileTypeIsDir.map (fun d =>
      { name := e.name, is_directory := d }))))

/-- Embedding of `FileList::refresh_items`: read `current_path`, on failure fall back to
reading `/` with a bare `.unwrap()` (so if the root read also fails the
process panics — modelled as `none`); insert the synthesized `".."` item at
index 0 and reset the selection to 0. `current_path` is never changed, even
on the root fallback. -/
def FileList.refresh_items (fs : Fs) (fl : FileList) : Option FileList :=
  match readDirItems fs fl.current_path with
  | some its =>
      some { fl with items := { name := "..", is_directory := false } :: its,
                     selected := some 0 }
  | none =>
      match readDirItems fs [] with
      | some its =>
          some { fl with items := { name := "..", is_directory := false } :: its,
                         selected := some 0 }
      | none => none

/-- Embedding of `FileList::navigate_up`: if `current_path` has a parent, move there and
refresh (returning `true`); at a root, do nothing and return `false`.
The `none` result models the panic inside the refresh. -/
def FileList.navigate_up (fs : Fs) (fl : FileList) : Option (Bool × FileList) :=
  match fl.current_path.parent with
  | some p =>
      match FileList.refresh_items fs { fl with current_path := p } with
      | some fl2 => some (true, fl2)
      | none => none
  | none => some (false, fl)

/-- Modelled from the spec: `FileList::select_next` delegates to ratatui's
`ListState::select_next`, an external dependency not present under `src/`;
spec §4.1 specifies `moveSelection(next)` as moving the selection down by
one, clamped at the last entry with no wraparound. An absent selection
(possible only for an empty listing) is left unchanged. -/
def FileList.select_next (fl : FileList) : FileList :=
  { fl with selected := fl.selected.map (fun i => min (i + 1) (fl.items.length - 1)) }

/-- Modelled from the spec: `FileList::select_previous` delegates to ratatui's
`ListState::select_previous`, an external dependency not present under `src/`;
spec §4.1 specifies `moveSelection(previous)` as moving the selection up by
one, clamped at index 0 with no wraparound. -/
def FileList.select_previous (fl : FileList) : FileList :=
  { fl with selected := fl.selected.map (fun i => i - 1) }

/-- The per-pane listing built by `AppState::default`: collect the names of
the `Ok` directory entries (file types are not consulted here), falling back
to reading `/` with a bare `.unwrap()` (panic modelled as `none`), and insert
`".."` at index 0. -/
def initNames (fs : Fs) (base : PathBuf) : Option (List String) :=
  match fs.readDir base with
  | some l => some (".." :: l.filterMap (fun ent => ent.map (fun e => e.name)))
  | none =>
      match fs.readDir [] with
      | some l => some (".." :: l.filterMap (fun ent => ent.map (fun e => e.name)))
      | none => none

/-- One pane of `AppState::default`: the collected names handed to
`FileList::new`, which looks every name up with `fs::metadata` — including
the inserted `".."`. -/
def initFileList (fs : Fs) (base : PathBuf) : Option FileList :=
  (initNames fs base).map (fun names => FileList.new fs names base)

/-- Embedding of `AppState`, owning the two panes. -/
structure AppState where
  wsl_list : FileList
  windows_list : FileList
deriving DecidableEq

/-- Embedding of `Focus`. -/
inductive Focus where
  | Wsl
  | Windows
deriving DecidableEq

/-- Embedding of `App`. Field `status_timer` is a `u8` in the source; it is only ever set to 50
and decremented while positive, so `Nat` is exact. -/
structure App where
  exit : Bool
  state : AppState
  focus : Focus
  status_message : Option String
  status_timer : Nat
deriving DecidableEq

/-- Outcome of the one `cp -r` invocation of `App::copy_item`:
whether `Command::output()` returned `Ok` (`launched`), whether the exit
status was success, and the captured stderr / launch-error text. -/
structure CopyOutcome where
  launched : Bool
  success : Bool
  stderr : String
  launchErr : String
deriving DecidableEq

/-- Embedding of `App::copy_item`: runs `cp -r source dest`; on a non-success exit status
or on a launch failure it writes one diagnostic line to stderr (`eprintln!`)
and returns. It never touches `App` state. The returned list is the stderr
trace of the call. -/
def copy_item (source dest : PathBuf) (o : CopyOutcome) : List String :=
  if o.launched then
    if o.success then []
    else ["Failed to copy " ++ PathBuf.display source ++ " to " ++
          PathBuf.display dest ++ ": " ++ o.stderr]
  else
    ["Failed to execute cp command: " ++ o.launchErr]

/-- Embedding of `App::show_status`: stores the message and sets the timer to 50. -/
def show_status (app : App) (message : String) : App :=
  { app with status_message := some message, status_timer := 50 }

/-- Embedding of `App::clear_status`: called once per main-loop iteration; decrements the
timer while positive, and only once it is 0 drops the message. -/
def clear_status (app : App) : App :=
  if app.status_timer > 0 then { app with status_timer := app.status_timer - 1 }
  else { app with status_message := none }

/-- Embedding of `App::export_file` (WSL → Windows). Returns the updated `App`, the
`(source, dest)` pair handed to `copy_item` (`none` when no copy was
attempted), and the stderr trace of the copy. Mirrors the source exactly:
the name joined onto the destination is always `item.name()` — the literal
selected name of the *source* pane, even when it is `".."`. -/
def export_file (app : App) (o : CopyOutcome) :
    App × Option (PathBuf × PathBuf) × List String :=
  match app.state.wsl_list.selected with
  | none => (app, none, [])
  | some selected =>
    match app.state.wsl_list.items[selected]? with
    | none => (app, none, [])
    | some item =>
      let source_path :=
        if item.name = ".." then app.state.wsl_list.current_path
        else app.state.wsl_list.current_path.join item.name
      let dest_path :=
        match app.state.windows_list.selected with
        | some windows_selected =>
          match app.state.windows_list.items[windows_selected]? with
          | some windows_item =>
            if windows_item.name = ".." then
              app.state.windows_list.current_path.join item.name
            else
              (app.state.windows_list.current_path.join windows_item.name).join item.name
          | none => app.state.windows_list.current_path.join item.name
        | none => app.state.windows_list.current_path.join item.name
      let log := copy_item source_path dest_path o
      (show_status app ("Exported " ++ item.name ++ " to Windows"),
       some (source_path, dest_path), log)

/-- Embedding of `App::import_file` (Windows → WSL), the mirror image of `export_file`. -/
def import_file (app : App) (o : CopyOutcome) :
    App × Option (PathBuf × PathBuf) × List String :=
  match app.state.windows_list.selected with
  | none => (app, none, [])
  | some selected =>
    match app.state.windows_list.items[selected]? with
    | none => (app, none, [])
    | some item =>
      let source_path :=
        if item.name = ".." then app.state.windows_list.current_path
        else app.state.windows_list.current_path.join item.name
      let dest_path :=
        match app.state.wsl_list.selected with
        | some wsl_selected =>
          match app.state.wsl_list.items[wsl_selected]? with
          | some wsl_item =>
            if wsl_item.name = ".." then
              app.state.wsl_list.current_path.join item.name
            else
              (app.state.wsl_list.current_path.join wsl_item.name).join item.name
          | none => app.state.wsl_list.current_path.join item.name
        | none => app.state.wsl_list.current_path.join item.name
      let log := copy_item source_path dest_path o
      (show_status app ("Imported " ++ item.name ++ " to WSL"),
       some (source_path, dest_path), log)

/-- The source-path half of the spec §4.3 resolver: the pane's current
directory itself when the sentinel is selected, else `currentPath/name`. -/
def resolveSource (src : FileList) (item : FileItem) : PathBuf :=
  if item.name = ".." then src.current_path else src.current_path.join item.name

/-- The destination-resolution algorithm of spec §4.3, stated over the
selected source item and the destination pane, with the appended name being
the literal selected source name (what the code actually joins). -/
def resolveDestination (item : FileItem) (dest : FileList) : PathBuf :=
  match dest.selected with
  | none => dest.current_path.join item.name
  | some j =>
    match dest.items[j]? with
    | none => dest.current_path.join item.name
    | some dItem =>
      if dItem.name = ".." then dest.current_path.join item.name
      else (dest.current_path.join dItem.name).join item.name

/-- Boolean character-list prefix test, for stating "contains a diagnostic". -/
def charsHasPre : List Char → List Char → Bool
  | [], _ => true
  | _ :: _, [] => false
  | a :: as, b :: bs => a == b && charsHasPre as bs

/-- Boolean character-list substring test. -/
def charsHasSub (n : List Char) : List Char → Bool
  | [] => charsHasPre n []
  | b :: bs => charsHasPre n (b :: bs) || charsHasSub n bs

/-- Predicate `strContainsSub h n` holds when `n` occurs contiguously inside `h`. -/
def strContainsSub (haystack needle : String) : Bool :=
  charsHasSub needle.data haystack.data

/-! Concrete fixtures used by the closed theorems below. -/

/-- A successful copy-engine outcome. -/
def oOk : CopyOutcome := { launched := true, success := true, stderr := "", launchErr := "" }

/-- A copy-engine run that executed but exited non-zero with stderr text. -/
def oFail : CopyOutcome :=
  { launched := true, success := false, stderr := "denied", launchErr := "" }

/-- Destination pane at `/dst` with the directory entry `archive` selected. -/
def destArchive : FileList :=
  { items := [{ name := "..", is_directory := false },
              { name := "archive", is_directory := true }],
    selected := some 1,
    current_path := ["dst"] }

/-- App with the WSL pane browsing `/src` with `..` selected and the Windows
pane as `destArchive` (the spec §8 test-case 5 state). -/
def appC1 : App :=
  { exit := false,
    state := { wsl_list := { items := [{ name := "..", is_directory := false }],
                             selected := some 0, current_path := ["src"] },
               windows_list := destArchive },
    focus := Focus.Wsl, status_message := none, status_timer := 0 }

/-- App with the WSL pane browsing `/src` with the file `rep` selected and
the Windows pane at `/dst` with the `..` sentinel selected. -/
def appC1w : App :=
  { exit := false,
    state := { wsl_list := { items := [{ name := "..", is_directory := false },
                                       { name := "rep", is_directory := false }],
                             selected := some 1, current_path := ["src"] },
               windows_list := { items := [{ name := "..", is_directory := false }],
                                 selected := some 0, current_path := ["dst"] } },
    focus := Focus.Wsl, status_message := none, status_timer := 0 }

/-- App with `..` selected in the WSL pane at `/src` and the `..` sentinel
selected in the Windows pane at `/dst`. -/
def appC2 : App :=
  { exit := false,
    state := { wsl_list := { items := [{ name := "..", is_directory := false }],
                             selected := some 0, current_path := ["src"] },
               windows_list := { items := [{ name := "..", is_directory := false }],
                                 selected := some 0, current_path := ["dst"] } },
    focus := Focus.Wsl, status_message := none, status_timer := 0 }

/-- App with the file `a.txt` selected in the WSL pane at `/src`, Windows
pane at `/dst` on its sentinel. -/
def appC3 : App :=
  { exit := false,
    state := { wsl_list := { items := [{ name := "..", is_directory := false },
                                       { name := "a.txt", is_directory := false }],
                             selected := some 1, current_path := ["src"] },
               windows_list := { items := [{ name := "..", is_directory := false }],
                                 selected := some 0, current_path := ["dst"] } },
    focus := Focus.Wsl, status_message := none, status_timer := 0 }

/-- App with the file `b.txt` selected in the Windows pane at `/dst`, WSL
pane at `/src` on its sentinel — the import-direction mirror of `appC3`. -/
def appC3i : App :=
  { exit := false,
    state := { wsl_list := { items := [{ name := "..", is_directory := false }],
                             selected := some 0, current_path := ["src"] },
               windows_list := { items := [{ name := "..", is_directory := false },
                                           { name := "b.txt", is_directory := false }],
                                 selected := some 1, current_path := ["dst"] } },
    focus := Focus.Wsl, status_message := none, status_timer := 0 }

/-- Filesystem with an empty readable directory `/home` whose parent lookup
`/home/..` reports a directory (as any real parent does). -/
def fs4 : Fs :=
  { readDir := fun p => if p = ["home"] then some [] else none,
    metadataIsDir := fun p => if p = ["home", ".."] then some true else none }

/-- Pane bound to `/home`. -/
def flHome : FileList := { items := [], selected := some 0, current_path := ["home"] }

/-- What pane initialization on `fs4` actually produces: the `".."` entry
flagged as a directory. -/
def flBad : FileList :=
  { items := [{ name := "..", is_directory := true }], selected := some 0,
    current_path := ["home"] }

/-- Filesystem on which every directory read and metadata lookup fails. -/
def fsNone : Fs := { readDir := fun _ => none, metadataIsDir := fun _ => none }

/-- Pane bound to `/x`. -/
def flC7 : FileList := { items := [], selected := some 0, current_path := ["x"] }

/-- Filesystem where only the root `/` is readable (and is empty). -/
def fs7 : Fs :=
  { readDir := fun p => if p = [] then some [] else none,
    metadataIsDir := fun _ => none }

/-- Pane bound to a directory `/gone` that can no longer be read. -/
def flGone : FileList := { items := [], selected := some 3, current_path := ["gone"] }

/-- Pane bound to `/a`. -/
def flA : FileList := { items := [], selected := some 0, current_path := ["a"] }

/-- The pane after navigating up from `/a` on `fs7`. -/
def flUpA : FileList :=
  { items := [{ name := "..", is_directory := false }], selected := some 0,
    current_path := [] }

/-- Two-entry listing with the last entry selected. -/
def flW : FileList :=
  { items := [{ name := "..", is_directory := false },
              { name := "a", is_directory := true }],
    selected := some 1, current_path := [] }

/-- A minimal app state. -/
def app0 : App :=
  { exit := false,
    state := { wsl_list := { items := [], selected := some 0, current_path := [] },
               windows_list := { items := [], selected := some 0, current_path := [] } },
    focus := Focus.Wsl, status_message := none, status_timer := 0 }

/-- A directory read whose second entry has an unreadable file type and whose
third iterator item is itself an error. -/
def l10 : List (Option RawEntry) :=
  [some { name := "a", fileTypeIsDir := some true },
   some { name := "b", fileTypeIsDir := none },
   none,
   some { name := "c", fileTypeIsDir := some false }]

/-- Filesystem exposing `l10` under `/d`. -/
def fs10 : Fs :=
  { readDir := fun p => if p = ["d"] then some l10 else none,
    metadataIsDir := fun _ => none }

/-- Pane bound to `/d`. -/
def fl10 : FileList := { items := [], selected := some 0, current_path := ["d"] }

/-! Shared helper lemmas. -/

/-- A transfer never touches the pane states or the exit flag: `export_file`
only reads the two `FileList`s and then calls `copy_item` (pure of `App`)
and `show_status` (status fields only). -/
theorem export_preserves (app : App) (o : CopyOutcome) :
    (export_file app o).1.state = app.state ∧ (export_file app o).1.exit = app.exit := by
  cases hsel : app.state.wsl_list.selected with
  | none => simp [export_file, hsel]
  | some i =>
    cases hget : app.state.wsl_list.items[i]? with
    | none => simp [export_file, hsel, hget]
    | some item => simp [export_file, hsel, hget, show_status]

/-- Mirror of `export_preserves` for `import_file`. -/
theorem import_preserves (app : App) (o : CopyOutcome) :
    (import_file app o).1.state = app.state ∧ (import_file app o).1.exit = app.exit := by
  cases hsel : app.state.windows_list.selected with
  | none => simp [import_file, hsel]
  | some i =>
    cases hget : app.state.windows_list.items[i]? with
    | none => simp [import_file, hsel, hget]
    | some item => simp [import_file, hsel, hget, show_status]

/-- Whenever `refresh_items` completes it resets the selection to 0 and keeps
`current_path` (even on the root fallback, which lists `/` without moving). -/
theorem refresh_preserves (fs : Fs) (fl fl2 : FileList)
    (h : FileList.refresh_items fs fl = some fl2) :
    fl2.selected = some 0 ∧ fl2.current_path = fl.current_path := by
  unfold FileList.refresh_items at h
  cases hr : readDirItems fs fl.current_path with
  | some its =>
    rw [hr] at h
    cases h
    exact ⟨rfl, rfl⟩
  | none =>
    rw [hr] at h
    cases hr2 : readDirItems fs [] with
    | some its =>
      rw [hr2] at h
      cases h
      exact ⟨rfl, rfl⟩
    | none =>
      rw [hr2] at h
      cases h

/-- Whenever `refresh_items` completes, the head of the produced listing is
the synthesized sentinel. -/
theorem refresh_head (fs : Fs) (fl fl2 : FileList)
    (h : FileList.refresh_items fs fl = some fl2) :
    fl2.items.head? = some { name := "..", is_directory := false } := by
  unfold FileList.refresh_items at h
  cases hr : readDirItems fs fl.current_path with
  | some its =>
    rw [hr] at h
    cases h
    rfl
  | none =>
    rw [hr] at h
    cases hr2 : readDirItems fs [] with
    | some its =>
      rw [hr2] at h
      cases h
      rfl
    | none =>
      rw [hr2] at h
      cases h

/-- A component not in `p` and different from `n` is not in `p.join n`. -/
theorem not_mem_join (p : PathBuf) (n : String) (hp : ".." ∉ p) (hn : n ≠ "..") :
    ".." ∉ p.join n := by
  intro h
  rcases List.mem_append.mp h with h | h
  · exact hp h
  · exact hn ((List.mem_singleton.mp h).symm)

/-- One `clear_status` step with a positive timer only decrements the timer. -/
theorem clear_status_of_pos (a : App) (h : 0 < a.status_timer) :
    clear_status a = { a with status_timer := a.status_timer - 1 } := by
  unfold clear_status
  rw [if_pos h]

/-- One `clear_status` step with an exhausted timer drops the message. -/
theorem clear_status_of_zero (a : App) (h : a.status_timer = 0) :
    clear_status a = { a with status_message := none } := by
  unfold clear_status
  rw [h]
  simp

/-- While the timer lasts, iterating `clear_status` only counts it down. -/
theorem clear_status_iterate_le (a : App) (k : Nat) (h : k ≤ a.status_timer) :
    clear_status^[k] a = { a with status_timer := a.status_timer - k } := by
  induction k with
  | zero => rfl
  | succ k ih =>
    rw [Function.iterate_succ_apply', ih (Nat.le_of_succ_le h)]
    rw [clear_status_of_pos _ (by simp; omega)]
    have : a.status_timer - k - 1 = a.status_timer - (k + 1) := by omega
    simp [this]

/-- A cleared status with an exhausted timer is a fixed point of
`clear_status`. -/
theorem clear_status_iterate_none (a : App) (k : Nat)
    (hm : a.status_message = none) (ht : a.status_timer = 0) :
    clear_status^[k] a = a := by
  induction k with
  | zero => rfl
  | succ k ih =>
    rw [Function.iterate_succ_apply', ih]
    rw [clear_status_of_zero a ht]
    cases a
    simp_all

/-- The `filter_map` body of `refresh_items`, rephrased: it is exactly "keep
the `Ok` entries whose file type could be read, with their real flag". -/
theorem filterMap_good (l : List (Option RawEntry)) :
    l.filterMap (fun ent => ent.bind (fun e => e.fileTypeIsDir.map (fun d =>
        ({ name := e.name, is_directory := d } : FileItem)))) =
    ((l.filterMap id).filter (fun e => e.fileTypeIsDir.isSome)).map
      (fun e => { name := e.name, is_directory := e.fileTypeIsDir.getD false }) := by
  induction l with
  | nil => rfl
  | cons hd tl ih =>
    cases hd with
    | none => simpa using ih
    | some e =>
      cases hfe : e.fileTypeIsDir with
      | none => simp [List.filterMap_cons, hfe, ih]
      | some d => simp [List.filterMap_cons, hfe, ih]

/-- Iterating `select_previous` subtracts from the selection (saturating). -/
theorem select_previous_iterate (fl : FileList) (n : Nat) :
    (FileList.select_previous^[n] fl).selected = fl.selected.map (fun i => i - n) := by
  induction n with
  | zero =>
    rw [Function.iterate_zero_apply]
    cases fl.selected <;> simp
  | succ n ih =>
    rw [Function.iterate_succ_apply']
    show (FileList.select_previous^[n] fl).selected.map (fun i => i - 1) = _
    rw [ih]
    cases fl.selected <;> simp [Nat.sub_sub]

/-! Claim theorems. -/

/-- C4 (amended): after every `refresh_items` the entry at index 0 is the
synthesized `".."` sentinel with `is_directory = false`, and a directory
yielding `its` usable entries produces exactly `its.length + 1` entries
(the sentinel consed in front). At pane initialization, however, the `".."`
name inserted by `AppState::default` IS looked up on disk by
`FileList::new`: its flag is `fs::metadata(base/"..").is_dir()` defaulted to
`false`, not the constant `false`. -/
theorem c4_sentinel_invariant :
    (∀ (fs : Fs) (fl fl2 : FileList), FileList.refresh_items fs fl = some fl2 →
        fl2.items.head? = some { name := "..", is_directory := false })
  ∧ (∀ (fs : Fs) (fl : FileList) (its : List FileItem),
        readDirItems fs fl.current_path = some its →
        FileList.refresh_items fs fl =
          some { fl with items := { name := "..", is_directory := false } :: its,
                         selected := some 0 })
  ∧ (∀ (fs : Fs) (base : PathBuf) (flI : FileList), initFileList fs base = some flI →
        flI.items.head? =
          some { name := "..",
                 is_directory := (fs.metadataIsDir (base.join "..")).getD false }) := by
  refine ⟨fun fs fl fl2 h => refresh_head fs fl fl2 h, ?_, ?_⟩
  · intro fs fl its h
    unfold FileList.refresh_items
    rw [h]
  · intro fs base flI h
    cases hb : fs.readDir base with
    | some l =>
      have heq : initFileList fs base =
          some (FileList.new fs
            (".." :: l.filterMap (fun ent => ent.map (fun e => e.name))) base) := by
        simp only [initFileList, initNames, hb, Option.map_some']
      rw [heq] at h
      cases h
      rfl
    | none =>
      cases hr : fs.readDir [] with
      | some l =>
        have heq : initFileList fs base =
            some (FileList.new fs
              (".." :: l.filterMap (fun ent => ent.map (fun e => e.name))) base) := by
          simp only [initFileList, initNames, hb, hr, Option.map_some']
        rw [heq] at h
        cases h
        rfl
      | none =>
        have heq : initFileList fs base = none := by
          simp only [initFileList, initNames, hb, hr, Option.map_none']
        rw [heq] at h
        exact Option.noConfusion h

/-- C4 counterexample: on a filesystem where `/home` is readable and
`/home/..` stats as a directory, pane initialization produces the `".."`
entry with `is_directory = true` — the sentinel was looked up on disk,
refuting "the sentinel has isDirectory = false ... at pane initialization". -/
theorem c4_counterexample :
    initFileList fs4 ["home"] = some flBad ∧
      flBad.items.head? = some { name := "..", is_directory := true } :=
  ⟨by decide, by decide⟩

theorem c4_witness :
    initFileList fs4 ["home"] = some flBad ∧
      flBad.items.head? =
        some { name := "..",
               is_directory := (fs4.metadataIsDir (PathBuf.join ["home"] "..")).getD false } :=
  ⟨by decide, c4_sentinel_invariant.2.2 fs4 ["home"] flBad (by decide)⟩

/-- C6: `moveSelection` moves the selection by one with clamping and no
wraparound: `next` at the last entry stays at the last entry, `previous` at
index 0 stays at 0, and iterating `previous` at least `i` times from index
`i` reaches index 0 and stays there. Always succeeds (total function).
The selection primitive itself lives in the ratatui dependency and is
modelled from the spec (see `FileList.select_next`). -/
theorem c6_move_selection_clamped (fl : FileList) (i : Nat)
    (h : fl.selected = some i) :
    ((FileList.select_next fl).selected = some (min (i + 1) (fl.items.length - 1)))
  ∧ (i + 1 = fl.items.length → (FileList.select_next fl).selected = some i)
  ∧ ((FileList.select_previous fl).selected = some (i - 1))
  ∧ (i = 0 → (FileList.select_previous fl).selected = some 0)
  ∧ ((FileList.select_previous^[i] fl).selected = some 0)
  ∧ ((FileList.select_previous^[i + 1] fl).selected = some 0) := by
  refine ⟨?_, ?_, ?_, ?_, ?_, ?_⟩
  · simp only [FileList.select_next, h, Option.map_some']
  · intro he
    simp only [FileList.select_next, h, Option.map_some', Option.some.injEq]
    omega
  · simp only [FileList.select_previous, h, Option.map_some']
  · intro h0
    simp only [FileList.select_previous, h, h0, Option.map_some', Nat.zero_sub]
  · rw [select_previous_iterate fl i, h]
    simp only [Option.map_some', Option.some.injEq]
    omega
  · rw [select_previous_iterate fl (i + 1), h]
    simp only [Option.map_some', Option.some.injEq]
    omega

theorem c6_witness :
    flW.selected = some 1 ∧
      (FileList.select_previous^[1] flW).selected = some 0 ∧
      (FileList.select_next flW).selected = some (min (1 + 1) (flW.items.length - 1)) :=
  ⟨rfl, (c6_move_selection_clamped flW 1 rfl).2.2.2.2.1,
    (c6_move_selection_clamped flW 1 rfl).1⟩

/-- C7 (amended): whenever `refresh_items` completes it resets the selection
to 0 and keeps `current_path`; when the current directory cannot be read it
falls back to listing the filesystem root; but when the root read also
fails, the bare `.unwrap()` panics (modelled as `none`) — a hard error the
claim's "never surfaces a hard error / in all cases" does not admit. -/
theorem c7_refresh_fails_soft :
    (∀ (fs : Fs) (fl fl2 : FileList), FileList.refresh_items fs fl = some fl2 →
        fl2.selected = some 0 ∧ fl2.current_path = fl.current_path)
  ∧ (∀ (fs : Fs) (fl : FileList) (its : List FileItem),
        fs.readDir fl.current_path = none → readDirItems fs [] = some its →
        FileList.refresh_items fs fl =
          some { fl with items := { name := "..", is_directory := false } :: its,
                         selected := some 0 })
  ∧ (∀ (fs : Fs) (fl : FileList),
        fs.readDir fl.current_path = none → fs.readDir [] = none →
        FileList.refresh_items fs fl = none) := by
  refine ⟨fun fs fl fl2 h => refresh_preserves fs fl fl2 h, ?_, ?_⟩
  · intro fs fl its h1 h2
    have hc : readDirItems fs fl.current_path = none := by
      unfold readDirItems
      rw [h1]
      rfl
    unfold FileList.refresh_items
    rw [hc, h2]
  · intro fs fl h1 h2
    have hc : readDirItems fs fl.current_path = none := by
      unfold readDirItems
      rw [h1]
      rfl
    have hr : readDirItems fs [] = none := by
      unfold readDirItems
      rw [h2]
      rfl
    unfold FileList.refresh_items
    rw [hc, hr]

/-- C7 counterexample: on a filesystem where both the current directory and
the root are unreadable, `refresh_items` does not complete (the source
panics on `.unwrap()`), refuting "refresh never surfaces a hard error and in
all cases resets the selection". -/
theorem c7_counterexample : FileList.refresh_items fsNone flC7 = none := by decide

theorem c7_witness :
    fs7.readDir flGone.current_path = none ∧
      readDirItems fs7 [] = some [] ∧
      FileList.refresh_items fs7 flGone =
        some { flGone with items := [{ name := "..", is_directory := false }],
                           selected := some 0 } :=
  ⟨by decide, by decide, c7_refresh_fails_soft.2.1 fs7 flGone [] (by decide) (by decide)⟩

/-- C8 (amended): `navigate_up` at a filesystem root returns `false` and
leaves the pane (path and listing) unchanged; with a parent it moves there,
refreshes (selection reset to 0) and returns `true` — provided the refresh
completes; if both the parent and the root are unreadable the refresh
panics. -/
theorem c8_navigate_up_boundary (fs : Fs) (fl : FileList) :
    (fl.current_path.parent = none → FileList.navigate_up fs fl = some (false, fl))
  ∧ (∀ (p : PathBuf) (fl2 : FileList), fl.current_path.parent = some p →
        FileList.refresh_items fs { fl with current_path := p } = some fl2 →
        FileList.navigate_up fs fl = some (true, fl2) ∧ fl2.current_path = p ∧
          fl2.selected = some 0) := by
  constructor
  · intro h
    unfold FileList.navigate_up
    rw [h]
  · intro p fl2 hp hr
    refine ⟨?_, ?_, ?_⟩
    · simp only [FileList.navigate_up, hp, hr]
    · exact (refresh_preserves fs _ fl2 hr).2
    · exact (refresh_preserves fs _ fl2 hr).1

/-- C8 counterexample: at `/a` (which has a parent), `navigate_up` on a
fully unreadable filesystem does not return `true` — it panics in the
refresh, refuting the unconditional "sets currentPath to the parent,
refreshes, and returns true". -/
theorem c8_counterexample :
    flA.current_path.parent = some [] ∧ FileList.navigate_up fsNone flA = none :=
  ⟨rfl, by decide⟩

theorem c8_witness :
    flA.current_path.parent = some [] ∧
      FileList.refresh_items fs7 { flA with current_path := ([] : PathBuf) } = some flUpA ∧
      FileList.navigate_up fs7 flA = some (true, flUpA) :=
  ⟨rfl, by decide, ((c8_navigate_up_boundary fs7 flA).2 [] flUpA rfl (by decide)).1⟩

/-- C9: executing a transfer in either direction, whatever the copy engine
outcome, leaves the whole `AppState` — entries, selection and current path
of both panes — unchanged: no refresh of either pane is triggered. -/
theorem c9_transfer_preserves_panes (app : App) (o : CopyOutcome) :
    (export_file app o).1.state = app.state ∧ (import_file app o).1.state = app.state :=
  ⟨(export_preserves app o).1, (import_preserves app o).1⟩

/-- C10: an `Ok` directory entry whose file type cannot be determined (and
likewise an errored iterator item) is silently omitted by `refresh_items` —
not included with a default flag, not reported: the listing is exactly the
sentinel plus the successfully inspected entries with their real flags. -/
theorem c10_undetermined_entries_omitted (fs : Fs) (fl : FileList)
    (l : List (Option RawEntry)) (h : fs.readDir fl.current_path = some l) :
    FileList.refresh_items fs fl =
      some { fl with
             items := { name := "..", is_directory := false } ::
               ((l.filterMap id).filter (fun e => e.fileTypeIsDir.isSome)).map
                 (fun e => { name := e.name, is_directory := e.fileTypeIsDir.getD false }),
             selected := some 0 } := by
  have h2 : readDirItems fs fl.current_path =
      some (((l.filterMap id).filter (fun e => e.fileTypeIsDir.isSome)).map
        (fun e => { name := e.name, is_directory := e.fileTypeIsDir.getD false })) := by
    unfold readDirItems
    rw [h, Option.map_some']
    exact congrArg some (filterMap_good l)
  unfold FileList.refresh_items
  rw [h2]

theorem c10_witness :
    fs10.readDir fl10.current_path = some l10 ∧
      FileList.refresh_items fs10 fl10 =
        some (FileList.mk
          [FileItem.mk ".." false, FileItem.mk "a" true, FileItem.mk "c" false]
          (some 0) ["d"]) :=
  ⟨by decide, (c10_undetermined_entries_omitted fs10 fl10 l10 (by decide)).trans (by decide)⟩

/-- C1 (amended): every transfer invokes the copy engine with the §4.3
source path and with a destination following the resolver branch structure
(no selection / sentinel selected → `destPath/name`; a real entry selected →
`destPath/destSelectedName/name`) — except that the appended `name` is the
literal selected source entry name `item.name()`, not the base name of the
source path. Hence with the source pane at `/src`, selection `".."`, and the
destination pane at `/dst` with `archive` selected, the resolved destination
is `/dst/archive/..`, not `/dst/archive/src`. -/
theorem c1_transfer_destination_resolution :
    (∀ (app : App) (o : CopyOutcome) (i : Nat) (item : FileItem),
        app.state.wsl_list.selected = some i →
        app.state.wsl_list.items[i]? = some item →
        (export_file app o).2.1 =
          some (resolveSource app.state.wsl_list item,
                resolveDestination item app.state.windows_list))
  ∧ (∀ (app : App) (o : CopyOutcome) (i : Nat) (item : FileItem),
        app.state.windows_list.selected = some i →
        app.state.windows_list.items[i]? = some item →
        (import_file app o).2.1 =
          some (resolveSource app.state.windows_list item,
                resolveDestination item app.state.wsl_list))
  ∧ (∀ (item : FileItem) (dest : FileList),
        (dest.selected = none →
          resolveDestination item dest = dest.current_path.join item.name)
      ∧ (∀ (j : Nat) (dItem : FileItem), dest.selected = some j →
            dest.items[j]? = some dItem →
            (dItem.name = ".." →
              resolveDestination item dest = dest.current_path.join item.name)
          ∧ (dItem.name ≠ ".." →
              resolveDestination item dest =
                (dest.current_path.join dItem.name).join item.name)))
  ∧ resolveDestination { name := "..", is_directory := false } destArchive =
      ["dst", "archive", ".."] := by
  refine ⟨?_, ?_, ?_, by decide⟩
  · intro app o i item h1 h2
    cases hw : app.state.windows_list.selected with
    | none => simp [export_file, resolveSource, resolveDestination, h1, h2, hw]
    | some j =>
      cases hg : app.state.windows_list.items[j]? with
      | none => simp [export_file, resolveSource, resolveDestination, h1, h2, hw, hg]
      | some dItem =>
        simp [export_file, resolveSource, resolveDestination, h1, h2, hw, hg]
  · intro app o i item h1 h2
    cases hw : app.state.wsl_list.selected with
    | none => simp [import_file, resolveSource, resolveDestination, h1, h2, hw]
    | some j =>
      cases hg : app.state.wsl_list.items[j]? with
      | none => simp [import_file, resolveSource, resolveDestination, h1, h2, hw, hg]
      | some dItem =>
        simp [import_file, resolveSource, resolveDestination, h1, h2, hw, hg]
  · intro item dest
    refine ⟨?_, ?_⟩
    · intro hn
      simp [resolveDestination, hn]
    · intro j dItem hj hg
      refine ⟨?_, ?_⟩
      · intro hdd
        simp [resolveDestination, hj, hg, hdd]
      · intro hdd
        simp [resolveDestination, hj, hg, hdd]

/-- C1 counterexample: at the spec's own concrete case (source `/src` with
`".."` selected, destination `/dst` with `archive` selected) the code
resolves the destination to `/dst/archive/..`, not `/dst/archive/src`. -/
theorem c1_counterexample :
    (export_file appC1 oOk).2.1 = some (["src"], ["dst", "archive", ".."]) ∧
      (["dst", "archive", ".."] : PathBuf) ≠ ["dst", "archive", "src"] :=
  ⟨by decide, by decide⟩

theorem c1_witness :
    appC1w.state.wsl_list.selected = some 1 ∧
      appC1w.state.wsl_list.items[1]? = some (FileItem.mk "rep" false) ∧
      (export_file appC1w oOk).2.1 = some (["src", "rep"], ["dst", "rep"]) :=
  ⟨rfl, by decide,
    (c1_transfer_destination_resolution.1 appC1w oOk 1 (FileItem.mk "rep" false) rfl
      (by decide)).trans (by decide)⟩

/-- C2 (amended): the name appended to the destination is the literal
selected source entry name, which IS `".."` when the source pane's sentinel
is selected — so a transfer can produce a destination containing `".."` as a
path component. Only for a non-sentinel source selection (and a destination
directory free of `".."` components, as every real one is) is the resolved
destination free of `".."` components. -/
theorem c2_appended_name (item : FileItem) (dest : FileList)
    (hitem : item.name ≠ "..") (hdest : ".." ∉ dest.current_path) :
    ".." ∉ resolveDestination item dest := by
  cases hs : dest.selected with
  | none =>
    simp only [resolveDestination, hs]
    exact not_mem_join _ _ hdest hitem
  | some j =>
    cases hg : dest.items[j]? with
    | none =>
      simp only [resolveDestination, hs, hg]
      exact not_mem_join _ _ hdest hitem
    | some d =>
      by_cases hd : d.name = ".."
      · simp only [resolveDestination, hs, hg, if_pos hd]
        exact not_mem_join _ _ hdest hitem
      · simp only [resolveDestination, hs, hg, if_neg hd]
        exact not_mem_join _ _ (not_mem_join _ _ hdest hd) hitem

/-- C2 counterexample: a transfer with the source sentinel selected appends
the literal `".."`: the copy engine is invoked with destination
`/dst/..` — the resolved destination contains `".."` as a path component,
refuting "the appended name ... is never the literal string `..`". -/
theorem c2_counterexample :
    (export_file appC2 oOk).2.1 = some (["src"], ["dst", ".."]) ∧
      ".." ∈ (["dst", ".."] : PathBuf) :=
  ⟨by decide, by decide⟩

theorem c2_witness :
    (FileItem.mk "rep2" false).name ≠ ".." ∧ ".." ∉ destArchive.current_path ∧
      ".." ∉ resolveDestination (FileItem.mk "rep2" false) destArchive :=
  ⟨by decide, by decide,
    c2_appended_name (FileItem.mk "rep2" false) destArchive (by decide) (by decide)⟩

/-- C3 (amended): for every transfer, in either direction, in which the copy
engine runs but reports failure, both panes' listings are left unchanged and
the next command is still processed (exit flag untouched); but the status
message produced is the fixed success-format text — `Exported <name> to
Windows` for `export_file`, `Imported <name> to WSL` for `import_file` — it
carries no diagnostic — and the diagnostic is written to stderr instead, a
second user-visible error surface beside the status message. -/
theorem c3_failure_nonfatal :
    (∀ (app : App) (o : CopyOutcome) (i : Nat) (item : FileItem),
        app.state.wsl_list.selected = some i →
        app.state.wsl_list.items[i]? = some item →
        o.launched = true → o.success = false →
        ((export_file app o).1.state = app.state)
      ∧ ((export_file app o).1.exit = app.exit)
      ∧ ((export_file app o).1.status_message =
           some ("Exported " ++ item.name ++ " to Windows"))
      ∧ ((export_file app o).2.2 ≠ []))
  ∧ (∀ (app : App) (o : CopyOutcome) (i : Nat) (item : FileItem),
        app.state.windows_list.selected = some i →
        app.state.windows_list.items[i]? = some item →
        o.launched = true → o.success = false →
        ((import_file app o).1.state = app.state)
      ∧ ((import_file app o).1.exit = app.exit)
      ∧ ((import_file app o).1.status_message =
           some ("Imported " ++ item.name ++ " to WSL"))
      ∧ ((import_file app o).2.2 ≠ [])) := by
  constructor
  · intro app o i item h1 h2 hl hs
    refine ⟨(export_preserves app o).1, (export_preserves app o).2, ?_, ?_⟩
    · simp [export_file, h1, h2, show_status]
    · simp [export_file, h1, h2, copy_item, hl, hs]
  · intro app o i item h1 h2 hl hs
    refine ⟨(import_preserves app o).1, (import_preserves app o).2, ?_, ?_⟩
    · simp [import_file, h1, h2, show_status]
    · simp [import_file, h1, h2, copy_item, hl, hs]

/-- C3 counterexample: in each direction, with a real file selected in the
source pane and a failing engine run whose diagnostic is `denied`, the
status message is the fixed text (`Exported a.txt to Windows`, respectively
`Imported b.txt to WSL`), which does not contain the diagnostic, while the
diagnostic appears on stderr — refuting both "a status message containing a
diagnostic" and "communicated only through that status message". -/
theorem c3_counterexample :
    (((export_file appC3 oFail).1.status_message = some "Exported a.txt to Windows")
  ∧ strContainsSub "Exported a.txt to Windows" "denied" = false
  ∧ ((export_file appC3 oFail).2.2 =
       ["Failed to copy /src/a.txt to /dst/a.txt: denied"])
  ∧ strContainsSub "Failed to copy /src/a.txt to /dst/a.txt: denied" "denied" = true)
  ∧ (((import_file appC3i oFail).1.status_message = some "Imported b.txt to WSL")
  ∧ strContainsSub "Imported b.txt to WSL" "denied" = false
  ∧ ((import_file appC3i oFail).2.2 =
       ["Failed to copy /dst/b.txt to /src/b.txt: denied"])
  ∧ strContainsSub "Failed to copy /dst/b.txt to /src/b.txt: denied" "denied" = true) :=
  ⟨⟨by decide, by decide, by decide, by decide⟩,
   ⟨by decide, by decide, by decide, by decide⟩⟩

theorem c3_witness :
    (appC3.state.wsl_list.selected = some 1 ∧
      appC3.state.wsl_list.items[1]? = some (FileItem.mk "a.txt" false) ∧
      appC3i.state.windows_list.selected = some 1 ∧
      appC3i.state.windows_list.items[1]? = some (FileItem.mk "b.txt" false) ∧
      oFail.launched = true ∧ oFail.success = false) ∧
    ((export_file appC3 oFail).1.state = appC3.state ∧
      (export_file appC3 oFail).2.2 ≠ []) ∧
    ((import_file appC3i oFail).1.state = appC3i.state ∧
      (import_file appC3i oFail).2.2 ≠ []) :=
  ⟨⟨rfl, by decide, rfl, by decide, rfl, rfl⟩,
   ⟨(c3_failure_nonfatal.1 appC3 oFail 1 (FileItem.mk "a.txt" false) rfl (by decide)
       rfl rfl).1,
    (c3_failure_nonfatal.1 appC3 oFail 1 (FileItem.mk "a.txt" false) rfl (by decide)
       rfl rfl).2.2.2⟩,
   ⟨(c3_failure_nonfatal.2 appC3i oFail 1 (FileItem.mk "b.txt" false) rfl (by decide)
       rfl rfl).1,
    (c3_failure_nonfatal.2 appC3i oFail 1 (FileItem.mk "b.txt" false) rfl (by decide)
       rfl rfl).2.2.2⟩⟩

/-- C5: a transfer sets the status with tick counter T = 50, and the status
fields evolve only through `clear_status`, called once per render-loop
iteration (the second conjunct shows the status evolution depends on the
status fields alone, so iterations whose command does not set a status are
transparent). Counting the trailing `clear_status` of the iteration that
processed the transfer, the draw at the start of the j-th subsequent
iteration observes `clear_status^[j]` of the post-transfer state: the
message is still there for every j ≤ T — in particular at the T-th draw —
and gone from j = T + 1 on, i.e. exactly T subsequent iterations clear it
and the (T+1)-th observes it empty. -/
theorem c5_status_expiry (app : App) (m : String) :
    ((show_status app m).status_timer = 50)
  ∧ (∀ a2 b2 : App, a2.status_message = b2.status_message →
       a2.status_timer = b2.status_timer →
       (clear_status a2).status_message = (clear_status b2).status_message ∧
       (clear_status a2).status_timer = (clear_status b2).status_timer)
  ∧ (∀ j, j ≤ 50 → (clear_status^[j] (show_status app m)).status_message = some m)
  ∧ (∀ j, 50 < j → (clear_status^[j] (show_status app m)).status_message = none) := by
  refine ⟨rfl, ?_, ?_, ?_⟩
  · intro a2 b2 h1 h2
    unfold clear_status
    rw [h2]
    by_cases hp : 0 < b2.status_timer
    · rw [if_pos hp, if_pos hp]
      exact ⟨h1, rfl⟩
    · rw [if_neg hp, if_neg hp]
      exact ⟨rfl, rfl⟩
  · intro j hj
    rw [clear_status_iterate_le (show_status app m) j (by simpa [show_status] using hj)]
    rfl
  · intro j hj
    have h50 : clear_status^[50] (show_status app m) =
        { show_status app m with
          status_timer := (show_status app m).status_timer - 50 } :=
      clear_status_iterate_le (show_status app m) 50 (by simp [show_status])
    have h51 : clear_status^[51] (show_status app m) =
        { show_status app m with status_message := none, status_timer := 0 } := by
      rw [show (51 : Nat) = 50 + 1 from rfl, Function.iterate_succ_apply', h50]
      rw [clear_status_of_zero _ (by simp [show_status])]
      rfl
    have hsplit : j = (j - 51) + 51 := by omega
    rw [hsplit, Function.iterate_add_apply, h51]
    rw [clear_status_iterate_none _ (j - 51) rfl rfl]

theorem c5_witness :
    (clear_status^[50] (show_status app0 "hi")).status_message = some "hi" ∧
      (clear_status^[51] (show_status app0 "hi")).status_message = none :=
  ⟨(c5_status_expiry app0 "hi").2.2.1 50 (by decide),
    (c5_status_expiry app0 "hi").2.2.2 51 (by decide)⟩
